import Mathlib

/-!
Verification development for the stack-driver-log-wrapper module
(`src/index.js`): a shallow embedding of the `Logger` class, its
constructor, the generic `log` method, the eight severity-named
convenience methods, and the exported `severity` enumeration.

JavaScript objects used as string-keyed label maps are embedded as
association lists (`Labels`) preserving insertion order, with
`Object.assign(target, src)` embedded as `objAssign` (in-place update of
existing keys, new keys appended).  Because the source mutates and
aliases label objects (`options.labels = Object.assign(this.globalLabels,
options.labels)`), label objects live in an explicit heap of references:
the logger's `globalLabels` field and the per-call `options.labels` field
are references (`Nat`) into the heap, so mutation and aliasing are
observable in the model.

The observable effects of one `log` call (the stdout echo and the backend
write, in order) are recorded as a trace of `Event`s, and the backend's
asynchronous `write` is a caller-supplied function whose return value
`log` forwards unchanged.
-/

/-- A JavaScript object used as a string-keyed label map: an association
list preserving insertion order. -/
abbrev Labels := List (String × String)

/-- `target[k] = v` on a JS object: update the value in place if the key
exists, otherwise append the key at the end. -/
def setKey : Labels → String → String → Labels
  | [], k, v => [(k, v)]
  | (k', v') :: rest, k, v =>
    if k' = k then (k', v) :: rest else (k', v') :: setKey rest k v

/-- `Object.assign(target, src)` restricted to string-keyed maps: every
own key of `src`, in order, is written into `target`; the result is the
(mutated) `target`. -/
def objAssign (target src : Labels) : Labels :=
  src.foldl (fun t kv => setKey t kv.1 kv.2) target

/-- A heap of label objects addressed by references, so that the source's
in-place mutation of `this.globalLabels` and the aliasing of
`options.labels` to it are observable.  `next` is the next fresh
reference. -/
structure Heap where
  next : Nat
  mem : Nat → Labels

/-- Read the label object a reference points to. -/
def Heap.read (h : Heap) (r : Nat) : Labels := h.mem r

/-- Allocate a fresh label object, returning its reference. -/
def Heap.alloc (h : Heap) (v : Labels) : Nat × Heap :=
  (h.next, ⟨h.next + 1, fun r => if r = h.next then v else h.mem r⟩)

/-- Overwrite the label object a reference points to (in-place mutation). -/
def Heap.write (h : Heap) (r : Nat) (v : Labels) : Heap :=
  ⟨h.next, fun x => if x = r then v else h.mem x⟩

/-- The empty heap. -/
def Heap.empty : Heap := ⟨0, fun _ => []⟩

/-- The exported `severity` object of `src/index.js`: nine named fields. -/
structure SeverityObject where
  DEFAULT : String
  DEBUG : String
  INFO : String
  NOTICE : String
  WARNING : String
  ERROR : String
  CRITICAL : String
  ALERT : String
  EMERGENCY : String

/-- `const severity = { DEFAULT: 'DEFAULT', ..., EMERGENCY: 'EMERGENCY' }`
from `src/index.js` lines 3-13. -/
def severity : SeverityObject :=
  { DEFAULT := "DEFAULT"
    DEBUG := "DEBUG"
    INFO := "INFO"
    NOTICE := "NOTICE"
    WARNING := "WARNING"
    ERROR := "ERROR"
    CRITICAL := "CRITICAL"
    ALERT := "ALERT"
    EMERGENCY := "EMERGENCY" }

/-- The entries of the `severity` object, in declaration order, as
(key, value) pairs — the embedding of `Object.entries(severity)`. -/
def severityEntries : List (String × String) :=
  [("DEFAULT", severity.DEFAULT),
   ("DEBUG", severity.DEBUG),
   ("INFO", severity.INFO),
   ("NOTICE", severity.NOTICE),
   ("WARNING", severity.WARNING),
   ("ERROR", severity.ERROR),
   ("CRITICAL", severity.CRITICAL),
   ("ALERT", severity.ALERT),
   ("EMERGENCY", severity.EMERGENCY)]

/-- The nine severity names. -/
def severityNames : List String :=
  ["DEFAULT", "DEBUG", "INFO", "NOTICE", "WARNING", "ERROR", "CRITICAL",
   "ALERT", "EMERGENCY"]

/-- The `resource` part of a backend entry's metadata:
`{type: this.resourceType, labels: this.resourceLabels}`. -/
structure Resource where
  type : String
  labels : Labels
deriving DecidableEq

/-- The entry handed to the backend: built by `makeEntry` from the
metadata `{resource, severity}` and the message
(`this._logger.entry(metadata, message)`). -/
structure LogEntry where
  resource : Resource
  severity : String
  message : String
deriving DecidableEq

/-- The per-call `options` object of `log`.  Its `labels` field, when
present, is a reference to a label object in the heap (the source
reassigns it to the very `globalLabels` object during the merge). -/
structure LogOptions where
  labels : Option Nat
deriving DecidableEq

/-- The `Logger` instance state set up by the constructor.
`globalLabels` is a reference into the heap; `backendProjectId` records
the explicit project id passed to the backend client, `none` meaning the
ambient default credentials/project were selected (`logging()` with no
argument). -/
structure Logger where
  name : String
  resourceType : String
  resourceLabels : Labels
  globalLabels : Nat
  echo : Bool
  backendProjectId : Option String

/-- The constructor's caller-supplied options object; an absent field is
`none` (all `none` models calling the constructor with no argument). -/
structure CtorOptions where
  projectId : Option String
  name : Option String
  resourceType : Option String
  resourceLabels : Option Labels
  globalLabels : Option Labels
  echo : Option Bool

/-- An observable effect of a `log` call: one stdout line
(`console.log(severity, message)`) or the backend write
(`this._logger.write(entry, options)`). -/
inductive Event where
  | echo (sev msg : String)
  | write (entry : LogEntry) (opts : LogOptions)
deriving DecidableEq

/-- Everything observable about one `log` call: the heap after the call,
the (mutated) options object forwarded to the backend write, the entry
handed to the backend, the ordered trace of effects, and the value `log`
returns (the backend write's return value). -/
structure LogResult (ρ : Type u) where
  heap : Heap
  finalOptions : LogOptions
  entry : LogEntry
  trace : List Event
  ret : ρ

/-- `Logger.constructor(options)` from `src/index.js` lines 45-68:
`Object.assign` of the caller's options over the defaults
`{projectId: 'default', name: 'default', resourceType: 'global',
resourceLabels: {}, globalLabels: {}, echo: false}`; no validation of any
field; the backend client gets no explicit project id exactly when the
(defaulted) project id is the string `'default'`.  The `globalLabels`
object is allocated in the heap, since `log` mutates it in place. -/
def Logger.constructor (options : CtorOptions) (h : Heap) : Logger × Heap :=
  let projectId := options.projectId.getD "default"
  let name := options.name.getD "default"
  let resourceType := options.resourceType.getD "global"
  let resourceLabels := options.resourceLabels.getD []
  let globalLabels := options.globalLabels.getD []
  let echo := options.echo.getD false
  let backendProjectId : Option String :=
    if projectId = "default" then none else some projectId
  let (gref, h1) := h.alloc globalLabels
  ({ name := name
     resourceType := resourceType
     resourceLabels := resourceLabels
     globalLabels := gref
     echo := echo
     backendProjectId := backendProjectId }, h1)

/-- `makeEntry(message, severity)` from `src/index.js` lines 79-88:
builds the backend entry from `{resource: {type: this.resourceType,
labels: this.resourceLabels}, severity}` and the message. -/
def Logger.makeEntry (st : Logger) (message s : String) : LogEntry :=
  { resource := { type := st.resourceType, labels := st.resourceLabels }
    severity := s
    message := message }

/-- `log(message, severity, options)` from `src/index.js` lines 97-119:
1. if `options` is falsy, use `{}`;
2. if `options.labels` is falsy, set `options.labels = {}` (a fresh
   object);
3. `options.labels = Object.assign(this.globalLabels, options.labels)`:
   merge the call's labels into the very `globalLabels` object (keys of
   `options.labels` win) and alias `options.labels` to it;
4. if `this.echo`, `console.log(severity, message)`;
5. build the entry with `makeEntry` and return
   `this._logger.write(entry, options)`.
The backend's asynchronous `write` is the caller-supplied function `w`;
its return value is returned unchanged. -/
def Logger.log (st : Logger) (h : Heap) (message s : String)
    (options : Option LogOptions) (w : LogEntry → LogOptions → ρ) :
    LogResult ρ :=
  let opts0 := options.getD { labels := none }
  let (lref, h1) :=
    match opts0.labels with
    | none => h.alloc []
    | some r => (r, h)
  let merged := objAssign (h1.read st.globalLabels) (h1.read lref)
  let h2 := h1.write st.globalLabels merged
  let finalOptions : LogOptions := { labels := some st.globalLabels }
  let entry := st.makeEntry message s
  { heap := h2
    finalOptions := finalOptions
    entry := entry
    trace := (if st.echo then [Event.echo s message] else [])
      ++ [Event.write entry finalOptions]
    ret := w entry finalOptions }

/-- The label map contents the backend write observes through the
forwarded options object (dereferencing `options.labels` in the heap the
write call sees). -/
def LogResult.backendLabels (res : LogResult ρ) : Labels :=
  match res.finalOptions.labels with
  | some r => res.heap.read r
  | none => []

/-- `alert(message, options)`: `return this.log(message, severity.ALERT, options)`. -/
def Logger.alert (st : Logger) (h : Heap) (message : String)
    (options : Option LogOptions) (w : LogEntry → LogOptions → ρ) :
    LogResult ρ :=
  st.log h message severity.ALERT options w

/-- `critical(message, options)`: `return this.log(message, severity.CRITICAL, options)`. -/
def Logger.critical (st : Logger) (h : Heap) (message : String)
    (options : Option LogOptions) (w : LogEntry → LogOptions → ρ) :
    LogResult ρ :=
  st.log h message severity.CRITICAL options w

/-- `debug(message, options)`: `return this.log(message, severity.DEBUG, options)`. -/
def Logger.debug (st : Logger) (h : Heap) (message : String)
    (options : Option LogOptions) (w : LogEntry → LogOptions → ρ) :
    LogResult ρ :=
  st.log h message severity.DEBUG options w

/-- `emergency(message, options)`: `return this.log(message, severity.EMERGENCY, options)`. -/
def Logger.emergency (st : Logger) (h : Heap) (message : String)
    (options : Option LogOptions) (w : LogEntry → LogOptions → ρ) :
    LogResult ρ :=
  st.log h message severity.EMERGENCY options w

/-- `error(message, options)`: `return this.log(message, severity.ERROR, options)`. -/
def Logger.error (st : Logger) (h : Heap) (message : String)
    (options : Option LogOptions) (w : LogEntry → LogOptions → ρ) :
    LogResult ρ :=
  st.log h message severity.ERROR options w

/-- `info(message, options)`: `return this.log(message, severity.INFO, options)`. -/
def Logger.info (st : Logger) (h : Heap) (message : String)
    (options : Option LogOptions) (w : LogEntry → LogOptions → ρ) :
    LogResult ρ :=
  st.log h message severity.INFO options w

/-- `notice(message, options)`: `return this.log(message, severity.NOTICE, options)`. -/
def Logger.notice (st : Logger) (h : Heap) (message : String)
    (options : Option LogOptions) (w : LogEntry → LogOptions → ρ) :
    LogResult ρ :=
  st.log h message severity.NOTICE options w

/-- `warning(message, options)`: `return this.log(message, severity.WARNING, options)`. -/
def Logger.warning (st : Logger) (h : Heap) (message : String)
    (options : Option LogOptions) (w : LogEntry → LogOptions → ρ) :
    LogResult ρ :=
  st.log h message severity.WARNING options w

/-- The severity-named convenience method the `Logger` class declares for
a given severity name, if any: `src/index.js` lines 121-151 declare
exactly eight such methods (`alert`, `critical`, `debug`, `emergency`,
`error`, `info`, `notice`, `warning`); no method is declared for the
`DEFAULT` severity. -/
def namedMethod (ρ : Type u) :
    String →
    Option (Logger → Heap → String → Option LogOptions →
      (LogEntry → LogOptions → ρ) → LogResult ρ)
  | "ALERT" => some Logger.alert
  | "CRITICAL" => some Logger.critical
  | "DEBUG" => some Logger.debug
  | "EMERGENCY" => some Logger.emergency
  | "ERROR" => some Logger.error
  | "INFO" => some Logger.info
  | "NOTICE" => some Logger.notice
  | "WARNING" => some Logger.warning
  | _ => none

/-- Example fixture: a logger whose `globalLabels` reference is 0. -/
def exLogger : Logger :=
  { name := "default"
    resourceType := "global"
    resourceLabels := [("function_name", "f")]
    globalLabels := 0
    echo := false
    backendProjectId := none }

/-- Example fixture: a heap where reference 0 holds `{env: "prod"}` and
reference 1 holds `{req: "7"}`; the next fresh reference is 2. -/
def exHeap : Heap :=
  ((Heap.empty.alloc [("env", "prod")]).2.alloc [("req", "7")]).2

/-- C1: for every global label map `G` (the contents of the logger's
`globalLabels` reference) and per-call `options.labels` map `O`, the
label map the backend's write observes through the forwarded options
object is `G` with every key of `O` overwritten by `O`'s value and all
other keys of either preserved (`objAssign G O`); and in particular a
logger constructed with `globalLabels = {env: "prod"}`, on
`.error("boom", {labels: {env: "staging", req: "42"}})`, hands the
backend the merged map `{env: "staging", req: "42"}` with an entry of
severity `ERROR` and message `"boom"`. -/
theorem log_label_merge_and_error_example :
    (∀ (ρ : Type) (st : Logger) (h : Heap) (msg s : String) (lref : Nat)
       (w : LogEntry → LogOptions → ρ),
       (st.log h msg s (some { labels := some lref }) w).backendLabels
         = objAssign (h.read st.globalLabels) (h.read lref))
    ∧ (let ctor := Logger.constructor
         ⟨none, none, none, none, some [("env", "prod")], none⟩ Heap.empty
       let call := ctor.2.alloc [("env", "staging"), ("req", "42")]
       let res := ctor.1.error call.2 "boom" (some { labels := some call.1 })
         (fun _ _ => ())
       res.backendLabels = [("env", "staging"), ("req", "42")]
         ∧ res.entry.severity = "ERROR" ∧ res.entry.message = "boom") := by
  constructor
  · intro ρ st h msg s lref w
    simp [Logger.log, LogResult.backendLabels, Heap.write, Heap.read]
  · decide

/-- C2: the merge writes into the very label object the logger's
`globalLabels` reference points to, not a copy: after
`log(msg, s, {labels: O})` the heap cell at `globalLabels` holds the old
contents overwritten by `O`, and a subsequent call on the same logger
with `options` omitted ships exactly that mutated map to the backend, so
the mutation persists across calls. -/
theorem log_mutates_globalLabels_in_place
    (st : Logger) (h : Heap) (msg s msg2 s2 : String) (lref : Nat)
    (w w2 : LogEntry → LogOptions → Unit)
    (hv : st.globalLabels < h.next) :
    (st.log h msg s (some { labels := some lref }) w).heap.read st.globalLabels
      = objAssign (h.read st.globalLabels) (h.read lref)
    ∧ (st.log (st.log h msg s (some { labels := some lref }) w).heap
        msg2 s2 none w2).backendLabels
      = objAssign (h.read st.globalLabels) (h.read lref) := by
  have hne : st.globalLabels ≠ h.next := Nat.ne_of_lt hv
  constructor
  · simp [Logger.log, Heap.write, Heap.read]
  · simp [Logger.log, LogResult.backendLabels, Heap.write, Heap.read,
      Heap.alloc, hne, objAssign]

/-- Witness for C2 at a concrete logger, heap and call-labels map. -/
theorem log_mutates_globalLabels_in_place_witness :
    exLogger.globalLabels < exHeap.next
    ∧ ((exLogger.log exHeap "m" "INFO" (some { labels := some 1 })
          (fun _ _ => ())).heap.read exLogger.globalLabels
        = objAssign (exHeap.read exLogger.globalLabels) (exHeap.read 1)
      ∧ (exLogger.log
          (exLogger.log exHeap "m" "INFO" (some { labels := some 1 })
            (fun _ _ => ())).heap "m2" "DEBUG" none
          (fun _ _ => ())).backendLabels
        = objAssign (exHeap.read exLogger.globalLabels) (exHeap.read 1)) :=
  ⟨by decide,
   log_mutates_globalLabels_in_place exLogger exHeap "m" "INFO" "m2" "DEBUG" 1
     (fun _ _ => ()) (fun _ _ => ()) (by decide)⟩

/-- C3 counterexample: the claim quantifies over all nine severities, but
the `Logger` class declares no severity-named convenience method for the
`DEFAULT` severity — only the other eight exist — so at the concrete
severity name `"DEFAULT"` there is no method at all. -/
theorem no_default_severity_method :
    ¬ ∃ m, namedMethod Unit "DEFAULT" = some m := by
  rintro ⟨m, hm⟩
  rw [show namedMethod Unit "DEFAULT"
    = (none : Option (Logger → Heap → String → Option LogOptions →
        (LogEntry → LogOptions → Unit) → LogResult Unit)) from rfl] at hm
  exact Option.noConfusion hm

/-- C3 amended: for each of the eight severities other than `DEFAULT`
(which has no severity-named method), the severity-named method exists
and calling it on any message and options is the same as calling
`log(message, SEVERITY_X, options)`, returning the same result. -/
theorem severity_methods_equal_log (ρ : Type) (sName : String)
    (hmem : sName ∈ severityNames) (hdef : sName ≠ "DEFAULT") :
    ∃ m, namedMethod ρ sName = some m
      ∧ ∀ (st : Logger) (hp : Heap) (msg : String) (o : Option LogOptions)
          (w : LogEntry → LogOptions → ρ),
          m st hp msg o w = st.log hp msg sName o w := by
  simp only [severityNames, List.mem_cons, List.not_mem_nil, or_false] at hmem
  rcases hmem with h | h | h | h | h | h | h | h | h <;> subst h
  · exact absurd rfl hdef
  · exact ⟨Logger.debug, rfl, fun st hp msg o w => rfl⟩
  · exact ⟨Logger.info, rfl, fun st hp msg o w => rfl⟩
  · exact ⟨Logger.notice, rfl, fun st hp msg o w => rfl⟩
  · exact ⟨Logger.warning, rfl, fun st hp msg o w => rfl⟩
  · exact ⟨Logger.error, rfl, fun st hp msg o w => rfl⟩
  · exact ⟨Logger.critical, rfl, fun st hp msg o w => rfl⟩
  · exact ⟨Logger.alert, rfl, fun st hp msg o w => rfl⟩
  · exact ⟨Logger.emergency, rfl, fun st hp msg o w => rfl⟩

/-- Witness for the amended C3 at the concrete severity `"ERROR"`. -/
theorem severity_methods_equal_log_witness :
    ("ERROR" ∈ severityNames ∧ "ERROR" ≠ "DEFAULT")
    ∧ ∃ m, namedMethod Unit "ERROR" = some m
        ∧ ∀ (st : Logger) (hp : Heap) (msg : String) (o : Option LogOptions)
            (w : LogEntry → LogOptions → Unit),
            m st hp msg o w = st.log hp msg "ERROR" o w :=
  ⟨⟨by decide, by decide⟩,
   severity_methods_equal_log Unit "ERROR" (by decide) (by decide)⟩

/-- C4: with `options` absent an empty options object is used, and with
`options.labels` absent a fresh empty map is used; in both cases the
label map the backend observes is exactly the logger's global default
labels (the empty per-call map merged into them changes nothing). -/
theorem log_defaults_absent_options
    (st : Logger) (h : Heap) (msg s : String)
    (w : LogEntry → LogOptions → Unit)
    (hv : st.globalLabels < h.next) :
    (st.log h msg s none w).backendLabels = h.read st.globalLabels
    ∧ (st.log h msg s (some { labels := none }) w).backendLabels
      = h.read st.globalLabels := by
  have hne : st.globalLabels ≠ h.next := Nat.ne_of_lt hv
  constructor <;>
    simp [Logger.log, LogResult.backendLabels, Heap.write, Heap.read,
      Heap.alloc, hne, objAssign]

/-- Witness for C4 at a concrete logger and heap. -/
theorem log_defaults_absent_options_witness :
    exLogger.globalLabels < exHeap.next
    ∧ ((exLogger.log exHeap "m" "INFO" none (fun _ _ => ())).backendLabels
        = exHeap.read exLogger.globalLabels
      ∧ (exLogger.log exHeap "m" "INFO" (some { labels := none })
          (fun _ _ => ())).backendLabels
        = exHeap.read exLogger.globalLabels) :=
  ⟨by decide,
   log_defaults_absent_options exLogger exHeap "m" "INFO" (fun _ _ => ())
     (by decide)⟩

/-- C5: for every call to `log`, whatever the per-call options, the entry
handed to the backend carries the constructor-configured resource
descriptor: `resource.type = resourceType` and
`resource.labels = resourceLabels`, and the whole entry is exactly what
`makeEntry` builds from them. -/
theorem log_resource_from_constructor_config
    (ρ : Type) (st : Logger) (h : Heap) (msg s : String)
    (o : Option LogOptions) (w : LogEntry → LogOptions → ρ) :
    (st.log h msg s o w).entry
      = { resource := { type := st.resourceType, labels := st.resourceLabels }
          severity := s
          message := msg }
    ∧ (st.log h msg s o w).entry = st.makeEntry msg s := by
  rcases o with _ | ⟨_ | lref⟩ <;>
    simp [Logger.log, Logger.makeEntry]

/-- C6: when the logger's echo flag is true, the trace of a `log` call is
exactly one stdout line carrying the severity and the message followed by
the backend write — so the line is written before the write is issued —
and when the flag is false, the trace is the backend write alone, with
zero stdout lines. -/
theorem echo_one_line_before_backend_write
    (ρ : Type) (st : Logger) (h : Heap) (msg s : String)
    (o : Option LogOptions) (w : LogEntry → LogOptions → ρ) :
    (st.log h msg s o w).trace
      = (if st.echo then [Event.echo s msg] else [])
        ++ [Event.write (st.log h msg s o w).entry
              (st.log h msg s o w).finalOptions]
    ∧ ((st.log h msg s o w).trace.countP
        (fun e => match e with | Event.echo _ _ => true | _ => false)
      = if st.echo then 1 else 0) := by
  rcases o with _ | ⟨_ | lref⟩ <;> cases he : st.echo <;>
    simp [Logger.log, he, List.countP_cons]

/-- C7: `log` returns exactly the value produced by the backend's write
call on the entry and the forwarded options — it neither discards nor
transforms it — and in particular any failure the backend reports (here,
an arbitrary `Except.error`) reaches the caller unmodified. -/
theorem log_returns_backend_write_result
    (ρ : Type) (st : Logger) (h : Heap) (msg s : String)
    (o : Option LogOptions) (w : LogEntry → LogOptions → ρ) :
    (st.log h msg s o w).ret
      = w (st.log h msg s o w).entry (st.log h msg s o w).finalOptions
    ∧ ∀ (ε α : Type) (err : ε),
        (st.log h msg s o
          (fun _ _ => (Except.error err : Except ε α))).ret
          = Except.error err := by
  rcases o with _ | ⟨_ | lref⟩ <;>
    simp [Logger.log]

/-- C8: the constructor fills every missing field of its options object
with its default — name `"default"`, resourceType `"global"`, empty
resourceLabels, empty globalLabels, echo `false`, projectId `"default"` —
keeps every supplied field unchanged, performs no validation (it is total
over all option values), and passes no explicit project id to the backend
client exactly when the (defaulted) project id is `"default"`, selecting
the ambient default credentials/project. -/
theorem constructor_fills_defaults_no_validation
    (o : CtorOptions) (h : Heap) :
    (Logger.constructor o h).1.name = o.name.getD "default"
    ∧ (Logger.constructor o h).1.resourceType = o.resourceType.getD "global"
    ∧ (Logger.constructor o h).1.resourceLabels = o.resourceLabels.getD []
    ∧ (Logger.constructor o h).2.read (Logger.constructor o h).1.globalLabels
        = o.globalLabels.getD []
    ∧ (Logger.constructor o h).1.echo = o.echo.getD false
    ∧ (Logger.constructor o h).1.backendProjectId
        = (if o.projectId.getD "default" = "default" then none
           else some (o.projectId.getD "default")) := by
  simp [Logger.constructor, Heap.alloc, Heap.read]

/-- C9: the exported severity enumeration has exactly nine entries —
DEFAULT, DEBUG, INFO, NOTICE, WARNING, ERROR, CRITICAL, ALERT,
EMERGENCY — each mapping the name to the identical string value, and
`log` forwards the severity to the backend entry as an opaque string,
unchanged (no ordering or numeric interpretation is applied). -/
theorem severity_enum_nine_identity_entries :
    severityEntries.length = 9
    ∧ severityEntries.all (fun kv => kv.2 == kv.1) = true
    ∧ severityEntries.map Prod.fst = severityNames
    ∧ ∀ (st : Logger) (h : Heap) (msg s : String) (o : Option LogOptions)
        (w : LogEntry → LogOptions → Unit),
        (st.log h msg s o w).entry.severity = s := by
  refine ⟨by decide, by decide, by decide, ?_⟩
  intro st h msg s o w
  rcases o with _ | ⟨_ | lref⟩ <;>
    simp [Logger.log, Logger.makeEntry]

/-- C10: `log` mutates the caller's options object: when the `labels`
field is absent (or the whole options argument is), a fresh label object
is allocated for it (the heap's allocation counter advances), and in
every case the options object forwarded to the backend write has its
`labels` field reassigned to the very reference held in the logger's
`globalLabels` field — the forwarded options alias the logger's
default-label state, so mutating either object later mutates the
other. -/
theorem log_aliases_options_labels_to_globalLabels
    (st : Logger) (h : Heap) (msg s : String) (o : Option LogOptions)
    (w : LogEntry → LogOptions → Unit) :
    (st.log h msg s o w).finalOptions.labels = some st.globalLabels
    ∧ (st.log h msg s none w).heap.next = h.next + 1
    ∧ (st.log h msg s (some { labels := none }) w).heap.next = h.next + 1
    ∧ ∀ (lref : Nat),
        (st.log h msg s (some { labels := some lref }) w).heap.next
          = h.next := by
  refine ⟨?_, by simp [Logger.log, Heap.alloc, Heap.write],
    by simp [Logger.log, Heap.alloc, Heap.write],
    fun lref => by simp [Logger.log, Heap.alloc, Heap.write]⟩
  rcases o with _ | ⟨_ | lref⟩ <;>
    simp [Logger.log]
